import Mathlib

/-!
Shallow embedding of the reddit-etl-pipeline repository (src/auth.py,
src/database.py, src/reddit.py) and verification of its specification.

Python dictionaries whose values are strings or `None` are modelled as
association lists over `PyVal`; fallible operations return `Except`.
-/

/-- A Python value as it occurs in the credential config and token-endpoint
JSON bodies: either `None` (also used for an absent JSON field / JSON null)
or a string. -/
inductive PyVal : Type where
  | none : PyVal
  | str : String → PyVal
deriving DecidableEq, Repr

/-- Python truthiness for the values above: `None` and the empty string are
falsy, every other string is truthy. -/
def truthy : PyVal → Bool
  | PyVal.none => false
  | PyVal.str s => s ≠ ""

/-- Python `a or b`. -/
def pyOr (a b : PyVal) : PyVal :=
  if truthy a then a else b

/-- A Python `Dict[str, str]` (values possibly `None`), as an association
list; keys are unique in every dict the program builds. -/
abbrev PyDict : Type := List (String × PyVal)

/-- `d.get(k)`: the value of the first binding of `k`, or `None` when the key
is absent (this also models a JSON field explicitly set to null). -/
def dictGet (d : PyDict) (k : String) : PyVal :=
  match d.find? (fun kv => kv.1 == k) with
  | some kv => kv.2
  | Option.none => PyVal.none

/-- Python `k in d`: key membership. -/
def containsKey (d : PyDict) (k : String) : Bool :=
  (d.find? (fun kv => kv.1 == k)).isSome

/-- `d[k] = v`: replace the first binding of `k`, or append the binding when
the key is absent. -/
def dictSet : PyDict → String → PyVal → PyDict
  | [], k, v => [(k, v)]
  | (k0, v0) :: rest, k, v =>
    if k0 == k then (k, v) :: rest else (k0, v0) :: dictSet rest k v

/-- `str(v)` as interpolated into the f-string `f"Error: {...}"`. -/
def pvStr : PyVal → String
  | PyVal.none => "None"
  | PyVal.str s => s

/-- Exceptions raised by the embedded auth code. -/
inductive PyError : Type where
  | typeError : String → PyError
  | keyError : String → PyError
  | httpError : String → PyError
deriving DecidableEq, Repr

/-- Observable outcome of an auth operation: how many HTTP requests were
issued, the list of configs passed to `save_token` (in order), and the
returned value or the propagated exception. -/
structure CallOutcome : Type where
  httpRequests : Nat
  saved : List PyDict
  result : Except PyError PyDict
deriving Repr

/-- `RedditAuth.make_request(config, data)` from src/auth.py, given the HTTP
status and parsed JSON body `token` of the token-endpoint response.
`res.raise_for_status()` raises for status 400..599; then a body containing
an `error` key raises `HTTPError(f"Error: {token['error']}")`; otherwise
`config["refresh_token"] = token.get("refresh_token") or data.get("refresh_token")`,
`config["access_token"] = token.get("access_token") or data.get("access_token")`,
then `save_token(config)` and return `config`. -/
def make_request (status : Nat) (config data token : PyDict) : CallOutcome :=
  if 400 ≤ status ∧ status < 600 then
    ⟨1, [], Except.error (PyError.httpError (toString status))⟩
  else if containsKey token "error" then
    ⟨1, [], Except.error (PyError.httpError ("Error: " ++ pvStr (dictGet token "error")))⟩
  else
    let c1 := dictSet config "refresh_token"
      (pyOr (dictGet token "refresh_token") (dictGet data "refresh_token"))
    let c2 := dictSet c1 "access_token"
      (pyOr (dictGet token "access_token") (dictGet data "access_token"))
    ⟨1, [c2], Except.ok c2⟩

/-- The grant payload built by `RedditAuth.refresh_token`:
`{"grant_type": "refresh_token", "refresh_token": refresh_token}` where the
`refresh_token` value is the one read from the stored config. -/
def refreshGrantData (refreshTok : PyVal) : PyDict :=
  [("grant_type", PyVal.str "refresh_token"), ("refresh_token", refreshTok)]

/-- The grant payload built by `RedditAuth.get_token`:
`{"grant_type": "authorization_code", "code": code, "redirect_uri": ...}`. -/
def authCodeGrantData (code : String) (redirectUrl : PyVal) : PyDict :=
  [("grant_type", PyVal.str "authorization_code"),
   ("code", PyVal.str code),
   ("redirect_uri", redirectUrl)]

/-- Calling `self.make_request(...)` with an explicit positional argument
list. The Python method has two required parameters after `self`
(`config` and `data`); any other arity raises `TypeError` at the call,
before the body runs. -/
def invokeMakeRequest (status : Nat) (args : List PyDict) (token : PyDict) :
    CallOutcome :=
  match args with
  | [config, data] => make_request status config data token
  | _ =>
    ⟨0, [], Except.error (PyError.typeError
      "make_request() missing 1 required positional argument: data")⟩

/-- `RedditAuth.get_token(code)` from src/auth.py: builds the
authorization-code grant payload (looking up `self.config["redirect_url"]`,
a `KeyError` if absent) and then calls `self.make_request(data)` — one
positional argument. -/
def get_token (status : Nat) (selfConfig : PyDict) (code : String)
    (token : PyDict) : CallOutcome :=
  match selfConfig.find? (fun kv => kv.1 == "redirect_url") with
  | Option.none => ⟨0, [], Except.error (PyError.keyError "redirect_url")⟩
  | some kv =>
    invokeMakeRequest status [authCodeGrantData code kv.2] token

/-- `RedditAuth.refresh_token` body after `read_token`: looks up
`config["refresh_token"]` (a `KeyError` if absent) and calls
`self.make_request(config, data)` with the refresh grant payload. -/
def refresh_token_exchange (status : Nat) (config token : PyDict) :
    CallOutcome :=
  match config.find? (fun kv => kv.1 == "refresh_token") with
  | Option.none => ⟨0, [], Except.error (PyError.keyError "refresh_token")⟩
  | some kv =>
    invokeMakeRequest status [config, refreshGrantData kv.2] token

theorem dictGet_dictSet_self (d : PyDict) (k : String) (v : PyVal) :
    dictGet (dictSet d k v) k = v := by
  induction d with
  | nil => simp [dictSet, dictGet, List.find?]
  | cons kv rest ih =>
    cases kv with
    | mk k0 v0 =>
      by_cases h0 : k0 = k
      · subst h0
        simp [dictSet, dictGet, List.find?]
      · have h0b : (k0 == k) = false := beq_eq_false_iff_ne.mpr h0
        simpa [dictSet, dictGet, List.find?, h0b] using ih

theorem dictGet_dictSet_ne (d : PyDict) (k k2 : String) (v : PyVal)
    (h : k ≠ k2) : dictGet (dictSet d k v) k2 = dictGet d k2 := by
  have hk : (k == k2) = false := beq_eq_false_iff_ne.mpr h
  induction d with
  | nil => simp [dictSet, dictGet, List.find?, hk]
  | cons kv rest ih =>
    cases kv with
    | mk k0 v0 =>
      by_cases h0 : k0 = k
      · subst h0
        simp [dictSet, dictGet, List.find?, hk]
      · have h0b : (k0 == k) = false := beq_eq_false_iff_ne.mpr h0
        by_cases h2 : k0 = k2
        · subst h2
          simp [dictSet, dictGet, List.find?, h0b]
        · have h2b : (k0 == k2) = false := beq_eq_false_iff_ne.mpr h2
          simpa [dictSet, dictGet, List.find?, h0b, h2b] using ih

theorem make_request_saved_eq (status : Nat) (config data token : PyDict)
    (h1 : ¬ (400 ≤ status ∧ status < 600))
    (h2 : ¬ containsKey token "error" = true) :
    (make_request status config data token).saved =
      [dictSet (dictSet config "refresh_token"
          (pyOr (dictGet token "refresh_token") (dictGet data "refresh_token")))
        "access_token"
        (pyOr (dictGet token "access_token") (dictGet data "access_token"))] := by
  simp [make_request, h1, h2]

/-- A stored Credential Record as read from the secret store, used as the
concrete prior state in counterexamples and witnesses. -/
def priorConfig : PyDict :=
  [("client_id", PyVal.str "cid"), ("client_secret", PyVal.str "csec"),
   ("redirect_url", PyVal.str "https://app/redirect"),
   ("account_id", PyVal.str "acct"),
   ("refresh_token", PyVal.str "prior-refresh"),
   ("access_token", PyVal.str "prior-access")]

/-- Claim C1 counterexample: with the authorization-code grant payload (which
carries no `refresh_token` entry) and a 2xx response whose body omits
`refresh_token`, the persisted Credential Record has `refresh_token = None`,
although the prior stored value was `"prior-refresh"` — the field is
overwritten with null, contradicting the claim for that grant payload. -/
theorem refresh_token_nulled_on_auth_code_grant :
    (make_request 200 priorConfig
        (authCodeGrantData "somecode" (PyVal.str "https://app/redirect"))
        [("access_token", PyVal.str "new-access")]).saved.map
      (fun c => dictGet c "refresh_token") = [PyVal.none]
    ∧ dictGet priorConfig "refresh_token" = PyVal.str "prior-refresh" := by
  decide

/-- Claim C1 (amended): for the refresh-token grant payload — whose `data`
carries the prior stored `refresh_token` — every Credential Record persisted
by `make_request` on a response whose `refresh_token` is null or absent keeps
`refresh_token` equal to the prior value; for the authorization-code grant
payload the field is instead overwritten with null (see the
counterexample). -/
theorem refresh_grant_retains_prior_refresh_token
    (status : Nat) (config token : PyDict) (v : PyVal)
    (hprior : dictGet config "refresh_token" = v)
    (habsent : dictGet token "refresh_token" = PyVal.none) :
    ((make_request status config (refreshGrantData v) token).saved.all
      (fun c => dictGet c "refresh_token" == v)) = true := by
  by_cases h1 : 400 ≤ status ∧ status < 600
  · simp [make_request, h1]
  · by_cases h2 : containsKey token "error"
    · simp [make_request, h1, h2]
    · have hdata : dictGet (refreshGrantData v) "refresh_token" = v := rfl
      rw [make_request_saved_eq status config _ token h1 h2]
      simp only [List.all_cons, List.all_nil, Bool.and_true]
      rw [dictGet_dictSet_ne _ "access_token" "refresh_token" _ (by decide),
        dictGet_dictSet_self, habsent, hdata]
      simp [pyOr, truthy]

theorem refresh_grant_retains_prior_refresh_token_witness :
    dictGet priorConfig "refresh_token" = PyVal.str "prior-refresh"
    ∧ dictGet ([("access_token", PyVal.str "new-access")] : PyDict)
        "refresh_token" = PyVal.none
    ∧ ((make_request 200 priorConfig
          (refreshGrantData (PyVal.str "prior-refresh"))
          [("access_token", PyVal.str "new-access")]).saved.all
        (fun c => dictGet c "refresh_token" == PyVal.str "prior-refresh"))
      = true :=
  ⟨by decide, by decide,
    refresh_grant_retains_prior_refresh_token 200 priorConfig
      [("access_token", PyVal.str "new-access")] (PyVal.str "prior-refresh")
      (by decide) (by decide)⟩

/-- Claim C4: on a 2xx token-endpoint response whose JSON body contains an
`error` field, `make_request` raises `HTTPError(f"Error: {token['error']}")`
and `save_token` is never called, so the stored Credential Record is left
unchanged. -/
theorem error_body_fails_without_saving
    (status : Nat) (config data token : PyDict)
    (hlo : 200 ≤ status) (hhi : status < 300)
    (herr : containsKey token "error" = true) :
    (make_request status config data token).saved = []
    ∧ (make_request status config data token).result =
        Except.error (PyError.httpError
          ("Error: " ++ pvStr (dictGet token "error"))) := by
  have h1 : ¬ (400 ≤ status ∧ status < 600) := by omega
  simp [make_request, h1, herr]

theorem error_body_fails_without_saving_witness :
    200 ≤ 200 ∧ 200 < 300
    ∧ containsKey [("error", PyVal.str "invalid_grant")] "error" = true
    ∧ ((make_request 200 priorConfig
          (refreshGrantData (PyVal.str "prior-refresh"))
          [("error", PyVal.str "invalid_grant")]).saved = []
      ∧ (make_request 200 priorConfig
          (refreshGrantData (PyVal.str "prior-refresh"))
          [("error", PyVal.str "invalid_grant")]).result =
        Except.error (PyError.httpError ("Error: " ++ pvStr
          (dictGet [("error", PyVal.str "invalid_grant")] "error")))) :=
  ⟨by decide, by decide, by decide,
    error_body_fails_without_saving 200 priorConfig
      (refreshGrantData (PyVal.str "prior-refresh"))
      [("error", PyVal.str "invalid_grant")]
      (by decide) (by decide) (by decide)⟩

/-- Claim C6 counterexample: a 2xx response with no `access_token` (and no
`error`) during the refresh-token grant makes `make_request` persist
`access_token = None`, although the prior stored value was `"prior-access"`:
the prior value is not retained. -/
theorem access_token_not_retained :
    (make_request 200 priorConfig
        (refreshGrantData (PyVal.str "prior-refresh"))
        [("refresh_token", PyVal.str "new-refresh")]).saved.map
      (fun c => dictGet c "access_token") = [PyVal.none]
    ∧ dictGet priorConfig "access_token" = PyVal.str "prior-access" := by
  decide

/-- Claim C6 (amended): on a response with no `access_token` field, the
persisted `access_token` is `data.get("access_token")` — taken from the
grant payload, not from the prior stored record; since neither grant payload
carries an `access_token` entry, the field is set to null for both the
refresh-token grant and the authorization-code grant. -/
theorem absent_access_token_set_to_null
    (status : Nat) (config token : PyDict) (v u : PyVal) (code : String)
    (habsent : dictGet token "access_token" = PyVal.none) :
    ((make_request status config (refreshGrantData v) token).saved.all
      (fun c => dictGet c "access_token" == PyVal.none)) = true
    ∧ ((make_request status config (authCodeGrantData code u) token).saved.all
      (fun c => dictGet c "access_token" == PyVal.none)) = true := by
  have hr : dictGet (refreshGrantData v) "access_token" = PyVal.none := rfl
  have ha : dictGet (authCodeGrantData code u) "access_token" = PyVal.none :=
    rfl
  by_cases h1 : 400 ≤ status ∧ status < 600
  · simp [make_request, h1]
  · by_cases h2 : containsKey token "error"
    · simp [make_request, h1, h2]
    · constructor
      · rw [make_request_saved_eq status config _ token h1 h2]
        simp only [List.all_cons, List.all_nil, Bool.and_true]
        rw [dictGet_dictSet_self, habsent, hr]
        simp [pyOr, truthy]
      · rw [make_request_saved_eq status config _ token h1 h2]
        simp only [List.all_cons, List.all_nil, Bool.and_true]
        rw [dictGet_dictSet_self, habsent, ha]
        simp [pyOr, truthy]

theorem absent_access_token_set_to_null_witness :
    dictGet ([("refresh_token", PyVal.str "new-refresh")] : PyDict)
      "access_token" = PyVal.none
    ∧ (((make_request 200 priorConfig
          (refreshGrantData (PyVal.str "prior-refresh"))
          [("refresh_token", PyVal.str "new-refresh")]).saved.all
        (fun c => dictGet c "access_token" == PyVal.none)) = true
      ∧ ((make_request 200 priorConfig
          (authCodeGrantData "somecode" (PyVal.str "https://app/redirect"))
          [("refresh_token", PyVal.str "new-refresh")]).saved.all
        (fun c => dictGet c "access_token" == PyVal.none)) = true) :=
  ⟨by decide,
    absent_access_token_set_to_null 200 priorConfig
      [("refresh_token", PyVal.str "new-refresh")]
      (PyVal.str "prior-refresh") (PyVal.str "https://app/redirect")
      "somecode" (by decide)⟩

/-- Claim C9: for every code string, `get_token(code)` calls
`self.make_request(data)` with a single positional argument while
`make_request` requires both `config` and `data`, so a `TypeError` is raised
before any HTTP request is issued and before `save_token` is called; the
authorization-code grant is unusable as implemented. -/
theorem get_token_raises_type_error
    (status : Nat) (selfConfig : PyDict) (code : String) (token : PyDict)
    (hurl : containsKey selfConfig "redirect_url" = true) :
    (get_token status selfConfig code token).httpRequests = 0
    ∧ (get_token status selfConfig code token).saved = []
    ∧ (get_token status selfConfig code token).result =
        Except.error (PyError.typeError
          "make_request() missing 1 required positional argument: data") := by
  rcases hfind : selfConfig.find? (fun kv => kv.1 == "redirect_url")
    with _ | kv
  · rw [containsKey, hfind] at hurl
    simp at hurl
  · simp [get_token, hfind, invokeMakeRequest]

theorem get_token_raises_type_error_witness :
    containsKey priorConfig "redirect_url" = true
    ∧ ((get_token 200 priorConfig "somecode" []).httpRequests = 0
      ∧ (get_token 200 priorConfig "somecode" []).saved = []
      ∧ (get_token 200 priorConfig "somecode" []).result =
          Except.error (PyError.typeError
            "make_request() missing 1 required positional argument: data")) :=
  ⟨by decide, get_token_raises_type_error 200 priorConfig "somecode" []
    (by decide)⟩

/-- A `bigquery.SchemaField`: name, field type, mode, and sub-fields (empty
for primitive fields). The Python constructor's default mode is
`"NULLABLE"` and its default sub-field tuple is empty. -/
inductive BQField : Type where
  | mk : String → String → String → List BQField → BQField

def BQField.name : BQField → String
  | BQField.mk n _ _ _ => n

def BQField.fieldType : BQField → String
  | BQField.mk _ t _ _ => t

def BQField.mode : BQField → String
  | BQField.mk _ _ m _ => m

def BQField.subFields : BQField → List BQField
  | BQField.mk _ _ _ fs => fs

/-- `conversion_field(name)` from src/database.py: a RECORD with the two
sub-records `click_through_conversions` and `view_through_conversions`, each
holding the three INTEGER attribution-window fields. -/
def conversion_field (name : String) : BQField :=
  let fields := [BQField.mk "attribution_window_day" "INTEGER" "NULLABLE" [],
                 BQField.mk "attribution_window_month" "INTEGER" "NULLABLE" [],
                 BQField.mk "attribution_window_week" "INTEGER" "NULLABLE" []]
  let click := BQField.mk "click_through_conversions" "RECORD" "NULLABLE" fields
  let view := BQField.mk "view_through_conversions" "RECORD" "NULLABLE" fields
  BQField.mk name "RECORD" "NULLABLE" [click, view]

/-- Python `dtype.endswith("!")`, on the character list (the library
`String.endsWith` does not reduce in the kernel). -/
def endsWithBang (s : String) : Bool := s.data.getLast? == some '!'

/-- Python `dtype[:-1]`: the string without its last character. -/
def stripBang (s : String) : String := String.mk s.data.dropLast

/-- The scalar `type_dict` of `schema_to_bq`. -/
def type_dict : List (String × String) :=
  [("int", "INTEGER"), ("float", "FLOAT"),
   ("timestamp", "TIMESTAMP"), ("str", "STRING")]

/-- `schema_to_bq(schema)` from src/database.py. A trailing `"!"` on the
declared type selects mode REQUIRED, otherwise NULLABLE; a scalar type is
looked up in `type_dict`; `"conversion"` expands via `conversion_field`; any
other type raises `ValueError(f"Field type {dtype} is not supported.")`,
which aborts the whole conversion at the first unsupported field. -/
def schema_to_bq : List (String × String) → Except String (List BQField)
  | [] => Except.ok []
  | (name, dtype0) :: rest =>
    let dtype := if endsWithBang dtype0 then stripBang dtype0 else dtype0
    let mode := if endsWithBang dtype0 then "REQUIRED" else "NULLABLE"
    match (type_dict.find? (fun kv => kv.1 == dtype)) with
    | some kv => do
      let fs ← schema_to_bq rest
      return BQField.mk name kv.2 mode [] :: fs
    | Option.none =>
      if dtype == "conversion" then do
        let fs ← schema_to_bq rest
        return conversion_field name :: fs
      else
        Except.error ("Field type " ++ dtype ++ " is not supported.")

/-- `BigQueryDatabase.REDDITADS_SCHEMA` from src/database.py, in declaration
order. -/
def REDDITADS_SCHEMA : List (String × String) :=
  [("spend", "int"),
   ("video_watched_50_percent", "int"),
   ("video_watched_75_percent", "int"),
   ("ecpm", "float"),
   ("video_viewable_impressions", "int"),
   ("date", "timestamp"),
   ("ctr", "float"),
   ("impressions", "int"),
   ("video_watched_3_seconds", "int"),
   ("cpc", "float"),
   ("video_watched_100_percent", "int"),
   ("video_started", "int"),
   ("video_plays_with_sound", "int"),
   ("ad_id", "str"),
   ("clicks", "int"),
   ("video_fully_viewable_impressions", "int"),
   ("video_plays_expanded", "int"),
   ("video_watched_95_percent", "int"),
   ("video_watched_10_seconds", "int"),
   ("video_watched_25_percent", "int"),
   ("page_visit", "conversion"),
   ("view_content", "conversion"),
   ("search", "conversion"),
   ("add_to_cart", "conversion"),
   ("add_to_wishlist", "conversion"),
   ("purchase", "conversion"),
   ("lead", "conversion"),
   ("sign_up", "conversion"),
   ("custom", "conversion"),
   ("ad_group_id", "str"),
   ("ad_name", "str"),
   ("account_id", "str"),
   ("campaign_id", "str"),
   ("ad_group_name", "str"),
   ("campaign_name", "str")]

/-- The declared column names, in declaration order. -/
def schemaKeys : List String := REDDITADS_SCHEMA.map (fun kv => kv.1)

/-- The merge keys of `merge_tables`:
`{"date", "ad_id", "ad_group_id", "account_id", "campaign_id"}`. -/
def mergeKeys : List String :=
  ["date", "ad_id", "ad_group_id", "account_id", "campaign_id"]

/-- The abstract syntax of the merge statement that `merge_tables` renders
into SQL text: the ON condition's column pairs, the SET assignments
(destination column, staged source column), the INSERT column list, and the
VALUES source-column list. -/
structure MergeStatement : Type where
  matchOn : List String
  updateSet : List (String × String)
  insertCols : List String
  insertValues : List String
deriving DecidableEq, Repr

/-- The merge statement built by `BigQueryDatabase.merge_tables`
(src/database.py). `insert_cols_list` is `set(REDDITADS_SCHEMA.keys())`;
the schema keys are pairwise distinct and CPython iterates one unmodified
set in one fixed order, the same for the `insert (...)` list, the
`values (...)` list and the update set difference, so the set is modelled
by the key list in declaration order; `update_cols_list` is the set
difference `insert_cols_list - keys`; `join_cols` iterates the merge-key
set. Each VALUES entry and SET source is the staging column `tmp.<c>`. -/
def merge_tables_stmt : MergeStatement :=
  let insert_cols_list := schemaKeys
  let update_cols_list :=
    insert_cols_list.filter (fun c => !(mergeKeys.contains c))
  { matchOn := mergeKeys
    updateSet := update_cols_list.map (fun c => (c, "tmp." ++ c))
    insertCols := insert_cols_list
    insertValues := insert_cols_list.map (fun c => "tmp." ++ c) }

/-- Observable warehouse operations of one `save_table` run. -/
inductive DbOp : Type where
  | loadStaging
  | mergeOp
  | deleteStaging
deriving DecidableEq, Repr

/-- Outcome of a `save_table` run: the warehouse operations executed, in
order, and whether an exception propagates to the caller afterwards. -/
structure RunOutcome : Type where
  trace : List DbOp
  failed : Bool
deriving DecidableEq, Repr

/-- Executing `try: body finally: fin`: the finaliser operations run after
the body whether or not the body raised, and the body's exception (if any)
propagates only after they ran. -/
def runTryFinally (body : List DbOp × Bool) (fin : List DbOp) :
    List DbOp × Bool :=
  (body.1 ++ fin, body.2)

/-- The staging load step of `save_table`, as a trace:
`loadFails` says whether the backend load job raises. -/
def save_new_table_run (loadFails : Bool) : List DbOp × Bool :=
  ([DbOp.loadStaging], loadFails)

/-- The merge step of `save_table`, as a trace: `mergeFails` says whether
the backend merge query raises. -/
def merge_tables_run (mergeFails : Bool) : List DbOp × Bool :=
  ([DbOp.mergeOp], mergeFails)

/-- `BigQueryDatabase.save_table` (src/database.py): `save_new_table` into
the staging table, then `try: self.merge_tables(tmp_table_id) finally:
self.client.delete_table(tmp_table_id)`. If the staging load raises, its
exception propagates before the `try` block is entered; otherwise the
`finally` clause deletes the staging table on every outcome of the merge. -/
def save_table (loadFails mergeFails : Bool) : RunOutcome :=
  let load := save_new_table_run loadFails
  if load.2 then ⟨load.1, true⟩
  else
    let m := runTryFinally (merge_tables_run mergeFails) [DbOp.deleteStaging]
    ⟨load.1 ++ m.1, m.2⟩

/-- Column selection `table[keys]` on a column-oriented dataframe (each
entry a column name with its cell values): the result has exactly the
requested columns in the requested order, each taken from the input frame;
a requested column absent from the frame raises `KeyError`. -/
def selectColumns (df : List (String × List PyVal)) :
    List String → Except PyError (List (String × List PyVal))
  | [] => Except.ok []
  | k :: ks =>
    match df.find? (fun col => col.1 == k) with
    | some col => do
      let rest ← selectColumns df ks
      return (k, col.2) :: rest
    | Option.none => Except.error (PyError.keyError k)

/-- The load job submitted by `BigQueryDatabase.save_new_table`
(src/database.py): job config with the declared schema, PARQUET source
format and `WRITE_TRUNCATE` write disposition; the dataframe is restricted
to `self.REDDITADS_SCHEMA.keys()` before `load_table_from_dataframe`. -/
structure LoadJob : Type where
  jobSchema : Except String (List BQField)
  writeDisposition : String
  sourceFormat : String
  staged : Except PyError (List (String × List PyVal))

def save_new_table (table : List (String × List PyVal)) : LoadJob :=
  { jobSchema := schema_to_bq REDDITADS_SCHEMA
    writeDisposition := "WRITE_TRUNCATE"
    sourceFormat := "PARQUET"
    staged := selectColumns table schemaKeys }

/-- The column list of `pd.DataFrame(report)` for a list of JSON row
objects: the union of the rows' keys, in first-seen order. -/
def frameColumns (report : List PyDict) : List String :=
  report.foldl (fun acc row =>
    row.foldl (fun acc2 kv =>
      if acc2.contains kv.1 then acc2 else acc2 ++ [kv.1]) acc) []

/-- `pd.DataFrame(report)` as a column-oriented frame: for each column the
rows' values, `None` for a row lacking the key. -/
def mkFrame (report : List PyDict) : List (String × List PyVal) :=
  (frameColumns report).map
    (fun c => (c, report.map (fun row => dictGet row c)))

/-- The columns `transform_report` (src/reddit.py) unconditionally drops. -/
def droppedIdCols : List String :=
  ["ad_group_id", "campaign_id", "account_id"]

/-- `transform_report` (src/reddit.py):
`pd.DataFrame(report).drop(columns=["ad_group_id", "campaign_id",
"account_id"])` — with pandas' default `errors="raise"`, a `KeyError` when
any of the three labels is absent from the frame — then
`.dropna(axis="columns", how="all")` removing the columns whose every cell
is missing, then `dataframe["date"] = pd.to_datetime(dataframe.date)`,
which needs the `date` column and is modelled as keeping its values. -/
def transform_report (report : List PyDict) :
    Except PyError (List (String × List PyVal)) :=
  let df := mkFrame report
  if droppedIdCols.all (fun d => (df.map Prod.fst).contains d) then
    let df2 := df.filter (fun col => !(droppedIdCols.contains col.1))
    let df3 := df2.filter
      (fun col => !(col.2.all (fun v => v == PyVal.none)))
    match df3.find? (fun col => col.1 == "date") with
    | some _ => Except.ok df3
    | Option.none => Except.error (PyError.keyError "date")
  else
    Except.error (PyError.keyError "not found in axis")

/-- Modelled from the spec: the rate limiting of `RedditApi.make_request`
(src/reddit.py) is performed by the third-party decorators
`@sleep_and_retry` and `@limits(calls=1, period=1)`, whose implementation is
not part of this repository. Per the spec, a call that would exceed 1 call
per 1-second window sleeps until the window allows it, and no rate-limit
error is ever surfaced. Time is a rational-valued logical clock:
`nextAdmit last arrival` is the time at which a call arriving at `arrival`
is admitted when the previous call was admitted at `last`. -/
def nextAdmit (last arrival : ℚ) : ℚ := max arrival (last + 1)

/-- Admission times of the calls after the first: the i-th entry of `ds` is
the delay between the previous call's admission and the next call's
arrival. -/
def admitsFrom (last : ℚ) : List ℚ → List ℚ
  | [] => []
  | d :: ds =>
    nextAdmit last (last + d) :: admitsFrom (nextAdmit last (last + d)) ds

/-- All admission times for `1 + ds.length` sequential calls from one
client instance, the first arriving (and admitted, the window being empty)
at `t0`. Every call is admitted — the limiter self-throttles and never
fails. -/
def admitTimes (t0 : ℚ) (ds : List ℚ) : List ℚ := t0 :: admitsFrom t0 ds

/-- Claim C2: the merge statement built by `merge_tables` matches on exactly
the Merge Key tuple (date, ad_id, ad_group_id, account_id, campaign_id); on
a match it updates exactly the non-key declared columns (as a set, the
declared columns minus the keys, and no key column), each from the staging
column of the same name; on no match it inserts exactly the full declared
column set, the VALUES list naming the same columns in the same order as
the INSERT list. -/
theorem merge_statement_correct :
    merge_tables_stmt.matchOn = mergeKeys
    ∧ (merge_tables_stmt.updateSet.map Prod.fst).toFinset
        = schemaKeys.toFinset \ mergeKeys.toFinset
    ∧ merge_tables_stmt.updateSet.all
        (fun p => mergeKeys.contains p.1 == false) = true
    ∧ merge_tables_stmt.updateSet.all
        (fun p => p.2 == "tmp." ++ p.1) = true
    ∧ merge_tables_stmt.insertCols = schemaKeys
    ∧ merge_tables_stmt.insertValues
        = merge_tables_stmt.insertCols.map (fun c => "tmp." ++ c) := by
  refine ⟨rfl, by decide, by decide, by decide, rfl, rfl⟩

/-- Claim C3: once the staging table has been created and populated (the
staging load did not raise), `save_table` deletes the staging table on every
outcome of the merge: the run's trace ends with the delete whether the merge
succeeds or raises, and a merge exception propagates only after the
delete. -/
theorem staging_table_always_deleted (loadFails mergeFails : Bool)
    (h : loadFails = false) :
    (save_table loadFails mergeFails).trace =
      [DbOp.loadStaging, DbOp.mergeOp, DbOp.deleteStaging]
    ∧ (save_table loadFails mergeFails).failed = mergeFails := by
  subst h
  exact ⟨rfl, rfl⟩

theorem staging_table_always_deleted_witness :
    (false = false)
    ∧ ((save_table false true).trace =
        [DbOp.loadStaging, DbOp.mergeOp, DbOp.deleteStaging]
      ∧ (save_table false true).failed = true) :=
  ⟨rfl, staging_table_always_deleted false true rfl⟩

/-- Whether a conversion result is the error outcome. -/
def isErrorResult : Except String (List BQField) → Bool
  | Except.error _ => true
  | Except.ok _ => false

theorem bind_ok_eq_map (e : Except String (List BQField))
    (f : List BQField → List BQField) :
    Except.bind e (fun fs => Except.ok (f fs)) = Except.map f e := by
  cases e <;> rfl

/-- The field `(n, dt)` of a schema contributes exactly the single primitive
field `BQField.mk n bq mode []`, the rest of the schema converting
unchanged. -/
def scalarMapsTo (n dt bq mode : String)
    (rest : List (String × String)) : Prop :=
  schema_to_bq ((n, dt) :: rest)
    = Except.map (fun fs => BQField.mk n bq mode [] :: fs) (schema_to_bq rest)

/-- The field `(n, "conversion")` contributes exactly `conversion_field n`,
the rest of the schema converting unchanged. -/
def conversionMapsTo (n : String) (rest : List (String × String)) : Prop :=
  schema_to_bq ((n, "conversion") :: rest)
    = Except.map (fun fs => conversion_field n :: fs) (schema_to_bq rest)

theorem schema_to_bq_unsupported (name dt : String)
    (hscalar : type_dict.find? (fun kv =>
      kv.1 == (if endsWithBang dt then stripBang dt else dt))
      = Option.none)
    (hconv : ((if endsWithBang dt then stripBang dt else dt)
      == "conversion") = false) :
    ∀ schema : List (String × String), (name, dt) ∈ schema →
      isErrorResult (schema_to_bq schema) = true := by
  intro schema
  induction schema with
  | nil => intro h; cases h
  | cons hd rest ih =>
    intro hmem
    obtain ⟨n0, d0⟩ := hd
    rcases List.mem_cons.mp hmem with heq | hmem2
    · obtain ⟨rfl, rfl⟩ := Prod.mk.injEq name dt n0 d0 ▸ heq
      simp only [schema_to_bq]
      rw [hscalar]
      simp [hconv, isErrorResult]
    · have hrec := ih hmem2
      rcases hfind : type_dict.find? (fun kv =>
          kv.1 == (if endsWithBang d0 then stripBang d0 else d0))
        with _ | kv
      · by_cases hc : ((if endsWithBang d0 then stripBang d0 else d0)
            == "conversion") = true
        · simp only [schema_to_bq]
          rw [hfind]
          simp only [hc, if_true]
          rcases he : schema_to_bq rest with msg | fs
          · simp [he, isErrorResult]
          · rw [he, isErrorResult] at hrec
            simp at hrec
        · simp only [schema_to_bq]
          rw [hfind]
          simp [hc, isErrorResult]
      · simp only [schema_to_bq]
        rw [hfind]
        rcases he : schema_to_bq rest with msg | fs
        · simp [he, isErrorResult]
        · rw [he, isErrorResult] at hrec
          simp at hrec

/-- Claim C5: each declared scalar type among int/float/timestamp/str maps
to exactly one destination primitive type (INTEGER/FLOAT/TIMESTAMP/STRING),
a trailing `!` selecting mode REQUIRED and its absence NULLABLE; a declared
`conversion` type expands to exactly the two sub-records
`click_through_conversions` and `view_through_conversions`, each with
exactly the three INTEGER attribution-window fields (day, week, month); and
a schema containing any other declared type makes the whole conversion fail
with a schema error. -/
theorem schema_to_bq_correct (schema rest : List (String × String))
    (name dt n : String)
    (hmem : (name, dt) ∈ schema)
    (hscalar : type_dict.find? (fun kv =>
      kv.1 == (if endsWithBang dt then stripBang dt else dt))
      = Option.none)
    (hconv : ((if endsWithBang dt then stripBang dt else dt)
      == "conversion") = false) :
    scalarMapsTo n "int" "INTEGER" "NULLABLE" rest
    ∧ scalarMapsTo n "int!" "INTEGER" "REQUIRED" rest
    ∧ scalarMapsTo n "float" "FLOAT" "NULLABLE" rest
    ∧ scalarMapsTo n "float!" "FLOAT" "REQUIRED" rest
    ∧ scalarMapsTo n "timestamp" "TIMESTAMP" "NULLABLE" rest
    ∧ scalarMapsTo n "timestamp!" "TIMESTAMP" "REQUIRED" rest
    ∧ scalarMapsTo n "str" "STRING" "NULLABLE" rest
    ∧ scalarMapsTo n "str!" "STRING" "REQUIRED" rest
    ∧ conversionMapsTo n rest
    ∧ (conversion_field n).subFields.map BQField.name
        = ["click_through_conversions", "view_through_conversions"]
    ∧ ((conversion_field n).subFields.all (fun r =>
        (r.subFields.map (fun f => (BQField.name f, BQField.fieldType f)))
          == [("attribution_window_day", "INTEGER"),
              ("attribution_window_month", "INTEGER"),
              ("attribution_window_week", "INTEGER")])) = true
    ∧ isErrorResult (schema_to_bq schema) = true := by
  refine ⟨?_, ?_, ?_, ?_, ?_, ?_, ?_, ?_, ?_, rfl, rfl,
    schema_to_bq_unsupported name dt hscalar hconv schema hmem⟩ <;>
    simp only [scalarMapsTo, conversionMapsTo] <;>
    exact bind_ok_eq_map _ _

theorem schema_to_bq_correct_witness :
    ("x", "bool") ∈ ([("x", "bool")] : List (String × String))
    ∧ type_dict.find? (fun kv =>
        kv.1 == (if endsWithBang "bool" then stripBang "bool" else "bool"))
        = Option.none
    ∧ ((if endsWithBang "bool" then stripBang "bool" else "bool")
        == "conversion") = false
    ∧ (scalarMapsTo "y" "int" "INTEGER" "NULLABLE" []
      ∧ scalarMapsTo "y" "int!" "INTEGER" "REQUIRED" []
      ∧ scalarMapsTo "y" "float" "FLOAT" "NULLABLE" []
      ∧ scalarMapsTo "y" "float!" "FLOAT" "REQUIRED" []
      ∧ scalarMapsTo "y" "timestamp" "TIMESTAMP" "NULLABLE" []
      ∧ scalarMapsTo "y" "timestamp!" "TIMESTAMP" "REQUIRED" []
      ∧ scalarMapsTo "y" "str" "STRING" "NULLABLE" []
      ∧ scalarMapsTo "y" "str!" "STRING" "REQUIRED" []
      ∧ conversionMapsTo "y" []
      ∧ (conversion_field "y").subFields.map BQField.name
          = ["click_through_conversions", "view_through_conversions"]
      ∧ ((conversion_field "y").subFields.all (fun r =>
          (r.subFields.map (fun f => (BQField.name f, BQField.fieldType f)))
            == [("attribution_window_day", "INTEGER"),
                ("attribution_window_month", "INTEGER"),
                ("attribution_window_week", "INTEGER")])) = true
      ∧ isErrorResult (schema_to_bq [("x", "bool")]) = true) :=
  ⟨by decide, by decide, by decide,
    schema_to_bq_correct [("x", "bool")] [] "x" "bool" "y"
      (by decide) (by decide) (by decide)⟩

theorem selectColumns_ok (table : List (String × List PyVal))
    (keys : List String) (st : List (String × List PyVal))
    (h : selectColumns table keys = Except.ok st) :
    st.map Prod.fst = keys
    ∧ ∀ p ∈ st, table.find? (fun col => col.1 == p.1) = some p := by
  induction keys generalizing st with
  | nil =>
    simp [selectColumns] at h
    subst h
    simp
  | cons k ks ih =>
    rcases hfind : table.find? (fun col => col.1 == k) with _ | col
    · rw [selectColumns, hfind] at h
      cases h
    · rcases hrest : selectColumns table ks with msg | rest
      · rw [selectColumns, hfind] at h
        simp [hrest, Except.bind] at h
      · rw [selectColumns, hfind] at h
        simp only [hrest, Except.bind] at h
        have hcons : (k, col.2) :: rest = st := by
          simpa using h
        subst hcons
        obtain ⟨h1, h2⟩ := ih rest hrest
        have hck : col.1 = k := by
          have := List.find?_some hfind
          simpa using this
        constructor
        · simp [h1]
        · intro p hp
          rcases List.mem_cons.mp hp with heq | hp2
          · subst heq
            rw [← hck] at hfind ⊢
            cases col
            exact hfind
          · exact h2 p hp2

/-- Claim C7: the staging load of `save_new_table` restricts the input to
exactly the declared schema's columns, in the declared fixed order, each
staged column carrying the input column of the same name (so no input
column outside the declared schema appears in the staged data), and uses
the write-truncate (overwrite) load mode. -/
theorem staging_load_restricts_columns (table : List (String × List PyVal))
    (st : List (String × List PyVal))
    (h : (save_new_table table).staged = Except.ok st) :
    st.map Prod.fst = schemaKeys
    ∧ (st.all (fun p =>
        table.find? (fun col => col.1 == p.1) == some p)) = true
    ∧ (save_new_table table).writeDisposition = "WRITE_TRUNCATE" := by
  have h0 : selectColumns table schemaKeys = Except.ok st := h
  obtain ⟨h1, h2⟩ := selectColumns_ok table schemaKeys st h0
  refine ⟨h1, ?_, rfl⟩
  rw [List.all_eq_true]
  intro p hp
  exact beq_iff_eq.mpr (h2 p hp)

/-- A concrete input frame holding every declared column plus one column
outside the declared schema. -/
def fullInputTable : List (String × List PyVal) :=
  ("extra_column", [PyVal.str "x"])
    :: REDDITADS_SCHEMA.map (fun kv => (kv.1, [PyVal.str "v"]))

/-- The staged frame expected for `fullInputTable`. -/
def stagedExpected : List (String × List PyVal) :=
  schemaKeys.map (fun k => (k, [PyVal.str "v"]))

theorem staging_load_restricts_columns_witness :
    (save_new_table fullInputTable).staged = Except.ok stagedExpected
    ∧ (stagedExpected.map Prod.fst = schemaKeys
      ∧ (stagedExpected.all (fun p =>
          fullInputTable.find? (fun col => col.1 == p.1) == some p)) = true
      ∧ (save_new_table fullInputTable).writeDisposition
          = "WRITE_TRUNCATE") :=
  ⟨rfl, staging_load_restricts_columns fullInputTable stagedExpected rfl⟩

theorem admitsFrom_spacing (ds : List ℚ) : ∀ last : ℚ,
    List.Chain' (fun a b => a + 1 ≤ b) (last :: admitsFrom last ds)
    ∧ last + ds.length ≤ (last :: admitsFrom last ds).getLastD 0
    ∧ (admitsFrom last ds).length = ds.length := by
  induction ds with
  | nil =>
    intro last
    simp [admitsFrom]
  | cons d ds ih =>
    intro last
    obtain ⟨hc, hl, hlen⟩ := ih (nextAdmit last (last + d))
    have hstep : last + 1 ≤ nextAdmit last (last + d) := le_max_right _ _
    refine ⟨?_, ?_, ?_⟩
    · exact List.chain'_cons.mpr ⟨hstep, hc⟩
    · have heq : (last :: admitsFrom last (d :: ds)).getLastD 0
          = (nextAdmit last (last + d)
              :: admitsFrom (nextAdmit last (last + d)) ds).getLastD 0 := by
        simp [admitsFrom, List.getLastD_cons]
      rw [heq]
      simp only [List.length_cons]
      push_cast
      linarith
    · simp [admitsFrom, hlen]

/-- Claim C8: for N = ds.length + 1 sequential calls from one client
instance (the i-th delay in `ds` being the time between the previous call's
admission and the next call's arrival), the rate limiter admits every call
(no rate-limit error is surfaced — `admitTimes` is total and assigns every
call an admission time), consecutive admissions are at least 1 second
apart — so at most 1 call is admitted per rolling 1-second window — and the
elapsed time from the first admission to the last is at least N - 1
seconds. -/
theorem rate_limiter_throttles (t0 : ℚ) (ds : List ℚ) :
    (admitTimes t0 ds).length = ds.length + 1
    ∧ List.Chain' (fun a b => a + 1 ≤ b) (admitTimes t0 ds)
    ∧ t0 + ds.length ≤ (admitTimes t0 ds).getLastD 0 := by
  obtain ⟨hc, hl, hlen⟩ := admitsFrom_spacing ds t0
  exact ⟨by simp [admitTimes, hlen], hc, hl⟩

theorem mkFrame_columns (report : List PyDict) :
    (mkFrame report).map Prod.fst = frameColumns report := by
  simp [mkFrame, List.map_map]
  exact List.map_id (frameColumns report)

/-- Claim C10: `transform_report` unconditionally drops the columns
ad_group_id, campaign_id and account_id (pandas `drop` with its default
`errors="raise"`), so for every report collection in which any of the three
is absent from every row — in particular the empty collection, whose frame
has no columns at all — it raises `KeyError` instead of returning a
result. -/
theorem transform_report_keyerror_on_missing_id
    (report : List PyDict)
    (h : (droppedIdCols.any
        (fun d => !((frameColumns report).contains d))) = true) :
    transform_report report
      = Except.error (PyError.keyError "not found in axis") := by
  have hall : (droppedIdCols.all
      (fun d => ((mkFrame report).map Prod.fst).contains d)) = false := by
    rw [mkFrame_columns]
    rcases List.any_eq_true.mp h with ⟨d, hd, hnc⟩
    rw [List.all_eq_false]
    exact ⟨d, hd, by simpa using hnc⟩
  simp only [transform_report, hall]
  rfl

theorem transform_report_keyerror_on_missing_id_witness :
    (droppedIdCols.any
        (fun d => !((frameColumns []).contains d))) = true
    ∧ transform_report []
        = Except.error (PyError.keyError "not found in axis") :=
  ⟨by decide, transform_report_keyerror_on_missing_id [] (by decide)⟩
